import Mathlib

/-!
Shallow embedding of the tide-whisperer data service (`tide-whisperer.go`):
the error catalog, the JSON error reporter, identity resolution, the
authorization gate, query-parameter handling and filter enrichment for the
`GET /:userID` handler, and the streaming result serializer, together with
theorems checking the stated behaviour.

External collaborators (shoreline token checking, the gatekeeper permission
service, the auth service for restricted tokens, and the Mongo-backed store)
are modelled as oracle functions gathered in an `Env` record; the handler code
itself is translated from the source.
-/

namespace TideWhisperer

/-- Token data resolved for a request, as produced by the shoreline client
or built from a restricted token. -/
structure TokenData where
  UserID : String
  IsServer : Bool
deriving Repr, DecidableEq

/-- A restricted token fetched from the auth service.  `authenticatesReq`
records the result of its `Authenticates(req)` capability for the current
request. -/
structure RestrictedToken where
  UserID : String
  authenticatesReq : Bool
deriving Repr, DecidableEq

/-- The detailed error envelope.  `InternalMessage` carries the json tag `-`
in the source, so it is used only for logging and never serialized. -/
structure detailedError where
  Status : Nat
  Id : String
  Code : String
  Message : String
  InternalMessage : String
deriving Repr, DecidableEq

def error_status_check : detailedError :=
  { Status := 500, Id := "", Code := "data_status_check",
    Message := "checking of the status endpoint showed an error", InternalMessage := "" }

def error_no_view_permisson : detailedError :=
  { Status := 403, Id := "", Code := "data_cant_view",
    Message := "user is not authorized to view data", InternalMessage := "" }

def error_no_permissons : detailedError :=
  { Status := 500, Id := "", Code := "data_perms_error",
    Message := "error finding permissons for user", InternalMessage := "" }

def error_running_query : detailedError :=
  { Status := 500, Id := "", Code := "data_store_error",
    Message := "internal server error", InternalMessage := "" }

def error_loading_events : detailedError :=
  { Status := 500, Id := "", Code := "data_marshal_error",
    Message := "internal server error", InternalMessage := "" }

def error_invalid_parameters : detailedError :=
  { Status := 500, Id := "", Code := "invalid_parameters",
    Message := "one or more parameters are invalid", InternalMessage := "" }

def MedtronicLoopBoundaryDate : String := "2017-09-01"

/-- `setInternalMessage` has a value receiver in the source: it returns a
modified copy and leaves its argument untouched. -/
def detailedError.setInternalMessage (d : detailedError) (internal : String) : detailedError :=
  { d with InternalMessage := internal }

/-- JSON serialization of the envelope.  The `InternalMessage` field carries
the json tag `-` in the source and is not serialized. -/
def serializeDetailedError (d : detailedError) : String :=
  "\x7b\"status\":" ++ Nat.repr d.Status ++ ",\"id\":\"" ++ d.Id ++
    "\",\"code\":\"" ++ d.Code ++ "\",\"message\":\"" ++ d.Message ++ "\"\x7d"

/-- Model of Go's `http.ResponseWriter`: the first `Write` without a prior
`WriteHeader` commits status 200; a later `WriteHeader` is ignored. -/
structure ResponseWriter where
  status : Option Nat
  body : String
  headers : List (String × String)
deriving Repr, DecidableEq

def ResponseWriter.init : ResponseWriter :=
  { status := none, body := "", headers := [] }

def ResponseWriter.addHeader (w : ResponseWriter) (k v : String) : ResponseWriter :=
  { w with headers := w.headers ++ [(k, v)] }

def ResponseWriter.writeHeader (w : ResponseWriter) (s : Nat) : ResponseWriter :=
  match w.status with
  | none => { w with status := some s }
  | some _ => w

def ResponseWriter.write (w : ResponseWriter) (s : String) : ResponseWriter :=
  match w.status with
  | none => { w with status := some 200, body := w.body ++ s }
  | some _ => { w with body := w.body ++ s }

/-- Model of the external uuid source (`uuid.NewV4()`), as a fresh-id supply
threaded through the program: each draw advances the supply state, and
distinct states yield distinct identifier strings (freshness is the only
property of the collaborator the code relies on). -/
def uuidNewV4 (g : Nat) : String × Nat :=
  (String.mk (List.replicate (g + 1) 'u'), g + 1)

/-- The value returned by `jsonError`: the response writer after the write,
the envelope actually serialized (with its per-occurrence `Id` set), the log
line, and the advanced fresh-id supply. -/
structure JsonErrorResult where
  writer : ResponseWriter
  sent : detailedError
  logLine : String
  gen : Nat
deriving Repr, DecidableEq

/-- `jsonError`: sets a fresh `Id` on its by-value copy of the envelope, logs
id, code, elapsed time, message and internal message, then writes the
serialized envelope with the envelope's status. -/
def jsonError (res : ResponseWriter) (err : detailedError) (elapsedSecs : String) (g : Nat) :
    JsonErrorResult :=
  let fresh := uuidNewV4 g
  let e := { err with Id := fresh.1 }
  let line := "api/data [" ++ e.Id ++ "][" ++ e.Code ++ "] failed after [" ++ elapsedSecs ++
    "]secs with error [" ++ e.Message ++ "][" ++ e.InternalMessage ++ "] "
  { writer := (((res.addHeader "content-type" "application/json").writeHeader e.Status).write
      (serializeDetailedError e)),
    sent := e,
    logLine := line,
    gen := fresh.2 }

/-- The raw query string and route parameter of a `GET /:userID` request.
`carelink`, `medtronic` and `dexcom` are `none` when the key is absent;
`restrictedTokens` is `none` when the `restricted_token` key is absent and
otherwise carries the list of values for that key. -/
structure RawQuery where
  userID : String
  typesCSV : Option String
  subTypesCSV : Option String
  startDate : Option String
  endDate : Option String
  carelink : Option Bool
  medtronic : Option Bool
  dexcom : Option Bool
  restrictedTokens : Option (List String)
deriving Repr, DecidableEq

/-- An inbound request: the `x-tidepool-session-token` header (Go's
`Header.Get` yields `""` when the header is absent) and the query. -/
structure Request where
  sessionToken : String
  query : RawQuery
deriving Repr, DecidableEq

/-- The query parameters / filter record built by `store.GetParams` and then
enriched by the handler before `GetDeviceData` runs. -/
structure Params where
  UserId : String
  Types : List String
  SubTypes : List String
  StartDate : Option String
  EndDate : Option String
  Carelink : Bool
  Dexcom : Bool
  DexcomDataSource : Option String
  Medtronic : Bool
  MedtronicDate : String
  MedtronicUploadIds : List String
deriving Repr, DecidableEq

/-- Modelled from the spec: `store.GetParams` lives in the repository's
`store` package, which is not under src/.  Per the spec it reads the
`:userID` route value, `type`/`subtype` as comma-separated inclusion sets,
`startDate`/`endDate` as ISO-8601 timestamps where "malformed dates are a
validation failure", and the boolean device flags; enrichment fields start
unset.  ISO-8601 validity of a date string is abstracted as the oracle
`isValidISODate`. -/
def GetParams (isValidISODate : String → Bool) (q : RawQuery) : Except String Params :=
  let startBad := match q.startDate with
    | some s => !isValidISODate s
    | none => false
  let endBad := match q.endDate with
    | some s => !isValidISODate s
    | none => false
  if startBad || endBad then
    .error "could not parse date"
  else
    .ok { UserId := q.userID,
          Types := (match q.typesCSV with | some s => s.splitOn "," | none => []),
          SubTypes := (match q.subTypesCSV with | some s => s.splitOn "," | none => []),
          StartDate := q.startDate,
          EndDate := q.endDate,
          Carelink := q.carelink.getD false,
          Dexcom := q.dexcom.getD false,
          DexcomDataSource := none,
          Medtronic := q.medtronic.getD false,
          MedtronicDate := "",
          MedtronicUploadIds := [] }

/-- A device-data document: an opaque map from field name to value. -/
abbrev Doc : Type := List (String × String)

/-- The external collaborators of the handler, as oracles: shoreline token
checking, the auth service's restricted-token fetch, the gatekeeper
permission lookup, the four store lookups used for enrichment, the main
device-data query, and the (spec-modelled) ISO-8601 date validity check. -/
structure Env where
  checkToken : String → Option TokenData
  getRestrictedToken : String → Except String (Option RestrictedToken)
  userInGroup : String → String → Except String (List String)
  hasMedtronicDirectData : String → Except String Bool
  getDexcomDataSource : String → Except String (Option String)
  hasMedtronicLoopDataAfter : String → String → Except String Bool
  getLoopableMedtronicDirectUploadIdsAfter : String → String → Except String (List String)
  getDeviceData : Params → List Doc
  isValidISODate : String → Bool

/-- Rendering of the permission map printed by the `log.Println(perms)`
line on the successful-lookup path. -/
def permsLogLine (perms : List String) : String :=
  String.intercalate "," perms

/-- `userCanViewData`: allow a caller equal to the target, otherwise consult
the gatekeeper; a lookup error is logged (`Error looking up user in group`)
and denies, otherwise the permission map is logged and the caller is allowed
when it has a `root` or `view` entry.  The second component carries the log
lines the call emits. -/
def userCanViewData (env : Env) (authenticatedUserID targetUserID : String) :
    Bool × List String :=
  if authenticatedUserID == targetUserID then
    (true, [])
  else
    match env.userInGroup authenticatedUserID targetUserID with
    | .error m => (false, ["Error looking up user in group " ++ m])
    | .ok perms =>
      (!(!(perms.contains "root") && !(perms.contains "view")), [permsLogLine perms])

/-- The token-data resolution block of the handler: a non-empty session
header is checked with shoreline alone; otherwise a single `restricted_token`
query value is fetched from the auth service and accepted only when it
resolves and authenticates the current request. -/
def resolveTokenData (env : Env) (req : Request) : Option TokenData :=
  if req.sessionToken != "" then
    env.checkToken req.sessionToken
  else
    match req.query.restrictedTokens with
    | some ts =>
      if ts.length == 1 then
        match env.getRestrictedToken (ts.headD "") with
        | .error _ => none
        | .ok none => none
        | .ok (some rt) =>
          if rt.authenticatesReq then some { UserID := rt.UserID, IsServer := false } else none
      else none
    | none => none

/-- The denial condition of the handler:
`td == nil || !(td.IsServer || td.UserID == userToView || userCanViewData(...))`.
Go's `||` short-circuits, so `userCanViewData` runs (and logs) only when the
caller is neither a server identity nor the target; the second component
carries the log lines emitted by the check. -/
def gateDenies (env : Env) (td : Option TokenData) (userToView : String) :
    Bool × List String :=
  match td with
  | none => (true, [])
  | some t =>
    if t.IsServer || t.UserID == userToView then
      (false, [])
    else
      match userCanViewData env t.UserID userToView with
      | (canView, lg) => (!canView, lg)

/-- Tags for the store operations the handler may perform, in order of
appearance in the source. -/
inductive Lookup where
  | medtronicDirect
  | dexcomSource
  | medtronicLoop
  | loopableUploadIds
  | deviceData
deriving Repr, DecidableEq

/-- The outcome of the pre-stream part of the handler: either `jsonError`
is called with some envelope, or `GetDeviceData` runs with the enriched
parameters. -/
inductive Outcome where
  | errorOut (e : detailedError)
  | query (p : Params)
deriving Repr, DecidableEq

/-- Trace of one handler run: the outcome, the store lookups performed in
order, and the log lines emitted. -/
structure HandlerTrace where
  outcome : Outcome
  lookups : List Lookup
  logs : List String
deriving Repr, DecidableEq

/-- One enrichment result: abort envelope or updated filter, plus the store
lookups performed and the log lines emitted. -/
abbrev EnrichResult : Type := Except detailedError Params × List Lookup × List String

/-- Sequencing of enrichment steps: an abort short-circuits; otherwise the
traces accumulate in order. -/
def seqEnrich (a : EnrichResult) (f : Params → EnrichResult) : EnrichResult :=
  match a with
  | (.error e, ls, lg) => (.error e, ls, lg)
  | (.ok p, ls1, lg1) =>
    match f p with
    | (r, ls2, lg2) => (r, ls1 ++ ls2, lg1 ++ lg2)

/-- Enrichment step 1 (source lines 493-501): when the `carelink` query key
is absent, look up Medtronic direct data and default `Carelink` to true when
there is none. -/
def enrichStep1 (env : Env) (carelinkPresent : Bool) (p : Params) : EnrichResult :=
  if !carelinkPresent then
    match env.hasMedtronicDirectData p.UserId with
    | .error m =>
      (.error error_running_query, [.medtronicDirect],
        ["Error while querying for Medtronic Direct data: " ++ m])
    | .ok hasMedtronicDirectData =>
      (.ok (if !hasMedtronicDirectData then { p with Carelink := true } else p),
        [.medtronicDirect], [])
  else (.ok p, [], [])

/-- Enrichment step 2 (source lines 502-510): when `Dexcom` is not set, look
up and attach the Dexcom data source. -/
def enrichStep2 (env : Env) (p : Params) : EnrichResult :=
  if !p.Dexcom then
    match env.getDexcomDataSource p.UserId with
    | .error m =>
      (.error error_running_query, [.dexcomSource],
        ["Error while querying for Dexcom data source: " ++ m])
    | .ok dexcomDataSource =>
      (.ok { p with DexcomDataSource := dexcomDataSource }, [.dexcomSource], [])
  else (.ok p, [], [])

/-- Enrichment step 3 (source lines 511-519): when the `medtronic` query key
is absent, look up Medtronic loop data after the boundary date and default
`Medtronic` to true when there is none. -/
def enrichStep3 (env : Env) (medtronicPresent : Bool) (p : Params) : EnrichResult :=
  if !medtronicPresent then
    match env.hasMedtronicLoopDataAfter p.UserId MedtronicLoopBoundaryDate with
    | .error m =>
      (.error error_running_query, [.medtronicLoop],
        ["Error while querying for Medtronic Loop data: " ++ m])
    | .ok hasMedtronicLoopData =>
      (.ok (if !hasMedtronicLoopData then { p with Medtronic := true } else p),
        [.medtronicLoop], [])
  else (.ok p, [], [])

/-- Enrichment step 4 (source lines 520-529): when `Medtronic` is false,
fetch the loopable Medtronic direct upload ids after the boundary date and
attach them with the boundary date. -/
def enrichStep4 (env : Env) (p : Params) : EnrichResult :=
  if !p.Medtronic then
    match env.getLoopableMedtronicDirectUploadIdsAfter p.UserId MedtronicLoopBoundaryDate with
    | .error m =>
      (.error error_running_query, [.loopableUploadIds],
        ["Error while querying for Loopable Medtronic Direct upload ids: " ++ m])
    | .ok medtronicUploadIds =>
      (.ok { p with MedtronicDate := MedtronicLoopBoundaryDate,
                    MedtronicUploadIds := medtronicUploadIds },
        [.loopableUploadIds], [])
  else (.ok p, [], [])

/-- The four conditional enrichment steps of the handler, in source order,
recording the lookups performed and the log lines; a lookup error aborts
with `error_running_query`. -/
def enrichParams (env : Env) (carelinkPresent medtronicPresent : Bool) (p : Params) :
    EnrichResult :=
  seqEnrich (seqEnrich (seqEnrich (enrichStep1 env carelinkPresent p)
    (enrichStep2 env)) (enrichStep3 env medtronicPresent)) (enrichStep4 env)

/-- The pre-stream part of the `GET /:userID` handler, translated from the
source in source order: parse the query parameters (`invalid_parameters` on
failure), resolve token data, apply the authorization gate
(`data_cant_view` on denial), run the four enrichment steps, and finally
execute the main device-data query. -/
def handleGetData (env : Env) (req : Request) : HandlerTrace :=
  match GetParams env.isValidISODate req.query with
  | .error m =>
    { outcome := .errorOut error_invalid_parameters, lookups := [],
      logs := ["Error parsing date: " ++ m] }
  | .ok queryParams =>
    let td := resolveTokenData env req
    match gateDenies env td queryParams.UserId with
    | (true, glg) =>
      { outcome := .errorOut error_no_view_permisson, lookups := [], logs := glg }
    | (false, glg) =>
      match enrichParams env req.query.carelink.isSome req.query.medtronic.isSome queryParams with
      | (.error e, ls, lg) => { outcome := .errorOut e, lookups := ls, logs := glg ++ lg }
      | (.ok p, ls, lg) =>
        { outcome := .query p, lookups := ls ++ [.deviceData], logs := glg ++ lg }

/-- The log line emitted when marshalling one document fails. -/
def marshalFailLog (m : String) : String :=
  "failed to marshal mongo result with error: " ++ m

/-- The loop body of `processResults`: for each document produced by the
iterator, skip it when empty; marshal it, logging and skipping on failure;
otherwise write a separating comma when a document was already written, then
a newline and the document. -/
def processLoop (marshal : Doc → Except String String) :
    List Doc → ResponseWriter → Nat → List String → ResponseWriter × Nat × List String
  | [], res, writeCount, logs => (res, writeCount, logs)
  | results :: rest, res, writeCount, logs =>
    if results.length > 0 then
      match marshal results with
      | .error m => processLoop marshal rest res writeCount (logs ++ [marshalFailLog m])
      | .ok bytes =>
        let res := if writeCount > 0 then res.write "," else res
        processLoop marshal rest ((res.write "\n").write bytes) (writeCount + 1) logs
    else
      processLoop marshal rest res writeCount logs

/-- `processResults`: write the opening bracket immediately, stream the
documents, then a trailing newline when anything was written, and the
closing bracket.  `json.Marshal` on an opaque document is the oracle
`marshal`.  Returns the response writer and the marshal-failure log lines. -/
def processResults (marshal : Doc → Except String String) (response : ResponseWriter)
    (docs : List Doc) : ResponseWriter × List String :=
  let response := response.addHeader "Content-Type" "application/json"
  let response := response.write "["
  match processLoop marshal docs response 0 [] with
  | (res, writeCount, logs) =>
    let res := if writeCount > 0 then res.write "\n" else res
    (res.write "]", logs)

/-- The successfully serialized non-empty documents, in cursor order. -/
def survivors (marshal : Doc → Except String String) (docs : List Doc) : List String :=
  docs.filterMap fun d => if d.length > 0 then (marshal d).toOption else none

/-- The marshal-failure log lines produced while streaming `docs`. -/
def failLogs (marshal : Doc → Except String String) (docs : List Doc) : List String :=
  docs.filterMap fun d =>
    if d.length > 0 then
      match marshal d with
      | .error m => some (marshalFailLog m)
      | .ok _ => none
    else none

/-- The text the streaming loop appends when `writeCount` documents were
already written and the given documents remain to be written. -/
def emitChunk : Nat → List String → String
  | _, [] => ""
  | writeCount, b :: rest =>
    (if writeCount > 0 then "," else "") ++ "\n" ++ b ++ emitChunk (writeCount + 1) rest

/-- The body of a streamed JSON array with the given serialized elements:
exactly brackets around newline-and-comma separated elements, and exactly
the two brackets when there are none. -/
def jsonArrayBody : List String → String
  | [] => "[]"
  | b :: rest => "[\n" ++ b ++ (rest.map fun x => ",\n" ++ x).foldr (· ++ ·) "" ++ "\n]"

/-- A result cursor: the documents not yet consumed and the number of times
`Close` has been called on it. -/
structure IterState where
  remaining : List Doc
  closeCount : Nat
deriving Repr, DecidableEq

/-- `Close` on the cursor. -/
def IterState.close (it : IterState) : IterState :=
  { it with closeCount := it.closeCount + 1 }

/-- The streaming loop over a live cursor, instrumented with a panic oracle:
`panicAt = some n` makes iteration `n` panic (modelling an exception raised
mid-stream), which propagates out as the `Except.error` case carrying the
cursor as it stood.  The loop itself never touches `Close`. -/
def processLoopIter (marshal : Doc → Except String String) (panicAt : Option Nat) :
    List Doc → Nat → Nat → ResponseWriter → Nat →
    Except (IterState × ResponseWriter) (IterState × ResponseWriter × Nat)
  | [], _, closeCount, res, writeCount => .ok (⟨[], closeCount⟩, res, writeCount)
  | results :: rest, step, closeCount, res, writeCount =>
    if panicAt == some step then
      .error (⟨results :: rest, closeCount⟩, res)
    else if results.length > 0 then
      match marshal results with
      | .error _ => processLoopIter marshal panicAt rest (step + 1) closeCount res writeCount
      | .ok bytes =>
        let res := if writeCount > 0 then res.write "," else res
        processLoopIter marshal panicAt rest (step + 1) closeCount
          ((res.write "\n").write bytes) (writeCount + 1)
    else
      processLoopIter marshal panicAt rest (step + 1) closeCount res writeCount

/-- `processResults` over a live cursor with the panic oracle; a panic
escapes before the closing bracket is written. -/
def processResultsIter (marshal : Doc → Except String String) (panicAt : Option Nat)
    (it : IterState) (response : ResponseWriter) :
    Except (IterState × ResponseWriter) (IterState × ResponseWriter) :=
  let response := response.addHeader "Content-Type" "application/json"
  let response := response.write "["
  match processLoopIter marshal panicAt it.remaining 0 it.closeCount response 0 with
  | .error (it, res) => .error (it, res)
  | .ok (it, res, writeCount) =>
    let res := if writeCount > 0 then res.write "\n" else res
    .ok (it, res.write "]")

/-- The data phase of the handler: acquire the cursor with `GetDeviceData`,
register `defer iter.Close()`, and stream; the deferred `Close` runs both on
normal return and while a panic unwinds, which the panic oracle covers. -/
def dataPhase (env : Env) (marshal : Doc → Except String String) (panicAt : Option Nat)
    (p : Params) (response : ResponseWriter) : IterState × ResponseWriter :=
  let iter : IterState := { remaining := env.getDeviceData p, closeCount := 0 }
  match processResultsIter marshal panicAt iter response with
  | .ok (it, res) => (it.close, res)
  | .error (it, res) => (it.close, res)

theorem ResponseWriter.write_write (w : ResponseWriter) (a b : String) :
    (w.write a).write b = w.write (a ++ b) := by
  cases h : w.status <;> simp [ResponseWriter.write, h, String.append_assoc]

theorem ResponseWriter.status_write_isSome (w : ResponseWriter) (a : String) :
    ((w.write a).status).isSome := by
  cases h : w.status <;> simp [ResponseWriter.write, h]

theorem ResponseWriter.write_empty (w : ResponseWriter) (h : w.status.isSome) :
    w.write "" = w := by
  obtain ⟨st, body, headers⟩ := w
  cases st with
  | none => simp at h
  | some s => simp [ResponseWriter.write, String.append_empty]

theorem processLoop_eq (marshal : Doc → Except String String) (docs : List Doc) :
    ∀ (res : ResponseWriter) (wc : Nat) (logs : List String), res.status.isSome →
      processLoop marshal docs res wc logs =
        (res.write (emitChunk wc (survivors marshal docs)),
          wc + (survivors marshal docs).length, logs ++ failLogs marshal docs) := by
  induction docs with
  | nil =>
    intro res wc logs h
    simp [processLoop, survivors, failLogs, emitChunk, ResponseWriter.write_empty res h]
  | cons d rest ih =>
    intro res wc logs h
    by_cases hl : d.length > 0
    · cases hm : marshal d with
      | error m =>
        simp only [processLoop, hl, if_pos, hm]
        rw [ih res wc (logs ++ [marshalFailLog m]) h]
        simp [survivors, failLogs, hl, hm, Except.toOption]
      | ok bytes =>
        simp only [processLoop, hl, if_pos, hm]
        have hcomp : ((if wc > 0 then res.write "," else res).write "\n").write bytes =
            res.write ((if wc > 0 then "," else "") ++ "\n" ++ bytes) := by
          by_cases hwc : wc > 0 <;>
            simp [hwc, ResponseWriter.write_write, String.empty_append, String.append_assoc]
        have hsv : survivors marshal (d :: rest) = bytes :: survivors marshal rest := by
          simp [survivors, hl, hm, Except.toOption]
        have hfl : failLogs marshal (d :: rest) = failLogs marshal rest := by
          simp [failLogs, hl, hm]
        rw [hcomp, ih _ (wc + 1) logs (ResponseWriter.status_write_isSome ..)]
        rw [ResponseWriter.write_write, hsv, hfl]
        simp only [emitChunk, List.length_cons, Prod.mk.injEq, String.append_assoc]
        exact ⟨trivial, by omega, trivial⟩
    · simp only [processLoop, hl, if_neg, ite_false]
      rw [ih res wc logs h]
      simp [survivors, failLogs, hl]

theorem emitChunk_succ (bs : List String) :
    ∀ k, emitChunk (k + 1) bs = (bs.map fun x => ",\n" ++ x).foldr (· ++ ·) "" := by
  induction bs with
  | nil => intro k; simp [emitChunk]
  | cons b rest ih =>
    intro k
    have hlit : (",\n" : String) = "," ++ "\n" := rfl
    simp only [emitChunk, List.map_cons, List.foldr_cons, ih (k + 1)]
    rw [if_pos (Nat.succ_pos k), hlit]

theorem processResults_eq (marshal : Doc → Except String String) (docs : List Doc) :
    processResults marshal ResponseWriter.init docs =
      ({ status := some 200,
         body := jsonArrayBody (survivors marshal docs),
         headers := [("Content-Type", "application/json")] },
        failLogs marshal docs) := by
  have hw : (ResponseWriter.init.addHeader "Content-Type" "application/json").write "[" =
      { status := some 200, body := "[", headers := [("Content-Type", "application/json")] } := rfl
  simp only [processResults, hw]
  rw [processLoop_eq marshal docs
    { status := some 200, body := "[", headers := [("Content-Type", "application/json")] }
    0 [] rfl]
  cases hsv : survivors marshal docs with
  | nil =>
    simp [emitChunk, jsonArrayBody, ResponseWriter.write, String.append_empty]
  | cons b rest =>
    have h1 : ("[\n" : String) = "[" ++ "\n" := rfl
    have h2 : ("\n]" : String) = "\n" ++ "]" := rfl
    simp only [List.length_cons, Nat.zero_add, gt_iff_lt, Nat.succ_pos, if_pos,
      ResponseWriter.write_write]
    simp only [emitChunk, emitChunk_succ, jsonArrayBody, ResponseWriter.write,
      String.empty_append, List.nil_append, Prod.mk.injEq, ResponseWriter.mk.injEq]
    rw [if_neg (by omega), h2]
    simp only [String.append_assoc, String.empty_append]
    rw [h1, String.append_assoc]
    exact ⟨⟨trivial, rfl, trivial⟩, trivial⟩

theorem seqEnrich_error (e : detailedError) (ls : List Lookup) (lg : List String)
    (f : Params → EnrichResult) : seqEnrich (.error e, ls, lg) f = (.error e, ls, lg) := rfl

theorem seqEnrich_ok (p1 : Params) (ls1 : List Lookup) (lg1 : List String)
    (f : Params → EnrichResult) :
    seqEnrich (.ok p1, ls1, lg1) f = ((f p1).1, ls1 ++ (f p1).2.1, lg1 ++ (f p1).2.2) := by
  rcases hf : f p1 with ⟨r, ls2, lg2⟩
  simp [seqEnrich, hf]

theorem seqEnrich_ok_inv (a : EnrichResult) (f : Params → EnrichResult) (p' : Params)
    (ls : List Lookup) (lg : List String) (h : seqEnrich a f = (.ok p', ls, lg)) :
    ∃ p1 ls1 lg1 ls2 lg2, a = (.ok p1, ls1, lg1) ∧ f p1 = (.ok p', ls2, lg2) ∧
      ls = ls1 ++ ls2 ∧ lg = lg1 ++ lg2 := by
  obtain ⟨r, ls0, lg0⟩ := a
  cases r with
  | error e => simp [seqEnrich] at h
  | ok p1 =>
    rw [seqEnrich_ok] at h
    rcases hf : f p1 with ⟨r2, ls2, lg2⟩
    rw [hf] at h
    cases r2 with
    | error e => simp at h
    | ok p2 =>
      simp only [Prod.mk.injEq, Except.ok.injEq] at h
      exact ⟨p1, ls0, lg0, ls2, lg2, rfl, by rw [hf, h.1], h.2.1.symm, h.2.2.symm⟩

theorem seqEnrich_error_inv (a : EnrichResult) (f : Params → EnrichResult) (e : detailedError)
    (ls : List Lookup) (lg : List String) (h : seqEnrich a f = (.error e, ls, lg)) :
    a = (.error e, ls, lg) ∨
      ∃ p1 ls1 lg1 ls2 lg2, a = (.ok p1, ls1, lg1) ∧ f p1 = (.error e, ls2, lg2) ∧
        ls = ls1 ++ ls2 ∧ lg = lg1 ++ lg2 := by
  obtain ⟨r, ls0, lg0⟩ := a
  cases r with
  | error e0 =>
    left
    simpa [seqEnrich] using h
  | ok p1 =>
    right
    rw [seqEnrich_ok] at h
    rcases hf : f p1 with ⟨r2, ls2, lg2⟩
    rw [hf] at h
    cases r2 with
    | ok p2 => simp at h
    | error e2 =>
      simp only [Prod.mk.injEq, Except.error.injEq] at h
      exact ⟨p1, ls0, lg0, ls2, lg2, rfl, by rw [hf, h.1], h.2.1.symm, h.2.2.symm⟩

theorem enrichStep1_trace (env : Env) (cp : Bool) (p : Params) :
    (enrichStep1 env cp p).2.1 = [] ∨ (enrichStep1 env cp p).2.1 = [.medtronicDirect] := by
  unfold enrichStep1
  cases cp with
  | true => simp
  | false =>
    cases h : env.hasMedtronicDirectData p.UserId with
    | error m => simp [h]
    | ok b => simp [h]

theorem enrichStep2_trace (env : Env) (p : Params) :
    (enrichStep2 env p).2.1 = [] ∨ (enrichStep2 env p).2.1 = [.dexcomSource] := by
  unfold enrichStep2
  cases hd : p.Dexcom with
  | true => simp
  | false =>
    cases h : env.getDexcomDataSource p.UserId with
    | error m => simp [h]
    | ok b => simp [h]

theorem enrichStep3_trace (env : Env) (mp : Bool) (p : Params) :
    (enrichStep3 env mp p).2.1 = [] ∨ (enrichStep3 env mp p).2.1 = [.medtronicLoop] := by
  unfold enrichStep3
  cases mp with
  | true => simp
  | false =>
    cases h : env.hasMedtronicLoopDataAfter p.UserId MedtronicLoopBoundaryDate with
    | error m => simp [h]
    | ok b => simp [h]

theorem enrichStep4_trace (env : Env) (p : Params) :
    (enrichStep4 env p).2.1 = [] ∨ (enrichStep4 env p).2.1 = [.loopableUploadIds] := by
  unfold enrichStep4
  cases hd : p.Medtronic with
  | true => simp
  | false =>
    cases h : env.getLoopableMedtronicDirectUploadIdsAfter p.UserId MedtronicLoopBoundaryDate with
    | error m => simp [h]
    | ok b => simp [h]

theorem enrichStep1_ok_cases (env : Env) (cp : Bool) (p p' : Params) (ls : List Lookup)
    (lg : List String) (h : enrichStep1 env cp p = (.ok p', ls, lg)) :
    lg = [] ∧
      ((cp = true ∧ p' = p ∧ ls = []) ∨
       (cp = false ∧ ls = [.medtronicDirect] ∧
         ((env.hasMedtronicDirectData p.UserId = .ok false ∧ p' = { p with Carelink := true }) ∨
          (env.hasMedtronicDirectData p.UserId = .ok true ∧ p' = p)))) := by
  unfold enrichStep1 at h
  cases cp with
  | true =>
    simp only [Bool.not_true, Bool.false_eq_true, if_neg, ite_false, Prod.mk.injEq,
      Except.ok.injEq] at h
    exact ⟨h.2.2.symm, .inl ⟨rfl, h.1.symm, h.2.1.symm⟩⟩
  | false =>
    cases ho : env.hasMedtronicDirectData p.UserId with
    | error m => simp [ho] at h
    | ok b =>
      cases b with
      | false =>
        simp only [ho, Bool.not_false, if_pos, Prod.mk.injEq, Except.ok.injEq] at h
        exact ⟨h.2.2.symm, .inr ⟨rfl, h.2.1.symm, .inl ⟨rfl, h.1.symm⟩⟩⟩
      | true =>
        simp only [ho, Bool.not_false, Bool.not_true, if_pos, Bool.false_eq_true, ite_false,
          Prod.mk.injEq, Except.ok.injEq] at h
        exact ⟨h.2.2.symm, .inr ⟨rfl, h.2.1.symm, .inr ⟨rfl, h.1.symm⟩⟩⟩

theorem enrichStep2_ok_cases (env : Env) (p p' : Params) (ls : List Lookup)
    (lg : List String) (h : enrichStep2 env p = (.ok p', ls, lg)) :
    lg = [] ∧
      ((p.Dexcom = true ∧ p' = p ∧ ls = []) ∨
       (p.Dexcom = false ∧ ls = [.dexcomSource] ∧
         ∃ ds, env.getDexcomDataSource p.UserId = .ok ds ∧
           p' = { p with DexcomDataSource := ds })) := by
  unfold enrichStep2 at h
  cases hd : p.Dexcom with
  | true =>
    simp only [hd, Bool.not_true, Bool.false_eq_true, if_neg, ite_false, Prod.mk.injEq,
      Except.ok.injEq] at h
    exact ⟨h.2.2.symm, .inl ⟨rfl, h.1.symm, h.2.1.symm⟩⟩
  | false =>
    cases ho : env.getDexcomDataSource p.UserId with
    | error m => simp [hd, ho] at h
    | ok ds =>
      simp only [hd, ho, Bool.not_false, if_pos, Prod.mk.injEq, Except.ok.injEq] at h
      exact ⟨h.2.2.symm, .inr ⟨rfl, h.2.1.symm, ds, rfl, h.1.symm⟩⟩

theorem enrichStep3_ok_cases (env : Env) (mp : Bool) (p p' : Params) (ls : List Lookup)
    (lg : List String) (h : enrichStep3 env mp p = (.ok p', ls, lg)) :
    lg = [] ∧
      ((mp = true ∧ p' = p ∧ ls = []) ∨
       (mp = false ∧ ls = [.medtronicLoop] ∧
         ((env.hasMedtronicLoopDataAfter p.UserId MedtronicLoopBoundaryDate = .ok false ∧
             p' = { p with Medtronic := true }) ∨
          (env.hasMedtronicLoopDataAfter p.UserId MedtronicLoopBoundaryDate = .ok true ∧
             p' = p)))) := by
  unfold enrichStep3 at h
  cases mp with
  | true =>
    simp only [Bool.not_true, Bool.false_eq_true, if_neg, ite_false, Prod.mk.injEq,
      Except.ok.injEq] at h
    exact ⟨h.2.2.symm, .inl ⟨rfl, h.1.symm, h.2.1.symm⟩⟩
  | false =>
    cases ho : env.hasMedtronicLoopDataAfter p.UserId MedtronicLoopBoundaryDate with
    | error m => simp [ho] at h
    | ok b =>
      cases b with
      | false =>
        simp only [ho, Bool.not_false, if_pos, Prod.mk.injEq, Except.ok.injEq] at h
        exact ⟨h.2.2.symm, .inr ⟨rfl, h.2.1.symm, .inl ⟨rfl, h.1.symm⟩⟩⟩
      | true =>
        simp only [ho, Bool.not_false, Bool.not_true, if_pos, Bool.false_eq_true, ite_false,
          Prod.mk.injEq, Except.ok.injEq] at h
        exact ⟨h.2.2.symm, .inr ⟨rfl, h.2.1.symm, .inr ⟨rfl, h.1.symm⟩⟩⟩

theorem enrichStep4_ok_cases (env : Env) (p p' : Params) (ls : List Lookup)
    (lg : List String) (h : enrichStep4 env p = (.ok p', ls, lg)) :
    lg = [] ∧
      ((p.Medtronic = true ∧ p' = p ∧ ls = []) ∨
       (p.Medtronic = false ∧ ls = [.loopableUploadIds] ∧
         ∃ ids, env.getLoopableMedtronicDirectUploadIdsAfter p.UserId MedtronicLoopBoundaryDate =
             .ok ids ∧
           p' = { p with MedtronicDate := MedtronicLoopBoundaryDate,
                         MedtronicUploadIds := ids })) := by
  unfold enrichStep4 at h
  cases hd : p.Medtronic with
  | true =>
    simp only [hd, Bool.not_true, Bool.false_eq_true, if_neg, ite_false, Prod.mk.injEq,
      Except.ok.injEq] at h
    exact ⟨h.2.2.symm, .inl ⟨rfl, h.1.symm, h.2.1.symm⟩⟩
  | false =>
    cases ho : env.getLoopableMedtronicDirectUploadIdsAfter p.UserId MedtronicLoopBoundaryDate with
    | error m => simp [hd, ho] at h
    | ok ids =>
      simp only [hd, ho, Bool.not_false, if_pos, Prod.mk.injEq, Except.ok.injEq] at h
      exact ⟨h.2.2.symm, .inr ⟨rfl, h.2.1.symm, ids, rfl, h.1.symm⟩⟩

theorem seqEnrich_ok_eq {p1 : Params} {ls1 : List Lookup} {lg1 : List String}
    {f : Params → EnrichResult} {r : Except detailedError Params} {ls2 : List Lookup}
    {lg2 : List String} (hf : f p1 = (r, ls2, lg2)) :
    seqEnrich (.ok p1, ls1, lg1) f = (r, ls1 ++ ls2, lg1 ++ lg2) := by
  simp [seqEnrich, hf]

theorem enrichParams_trace (env : Env) (cp mp : Bool) (p : Params) :
    List.Sublist (enrichParams env cp mp p).2.1
      [.medtronicDirect, .dexcomSource, .medtronicLoop, .loopableUploadIds] := by
  unfold enrichParams
  rcases h1 : enrichStep1 env cp p with ⟨r1, l1, g1⟩
  have t1 : l1 = [] ∨ l1 = [Lookup.medtronicDirect] := by
    have h := enrichStep1_trace env cp p
    rw [h1] at h
    exact h
  cases r1 with
  | error e =>
    rw [seqEnrich_error, seqEnrich_error, seqEnrich_error]
    show List.Sublist l1 _
    rcases t1 with rfl | rfl <;> decide
  | ok p1 =>
    rcases h2 : enrichStep2 env p1 with ⟨r2, l2, g2⟩
    have t2 : l2 = [] ∨ l2 = [Lookup.dexcomSource] := by
      have h := enrichStep2_trace env p1
      rw [h2] at h
      exact h
    rw [seqEnrich_ok_eq h2]
    cases r2 with
    | error e =>
      rw [seqEnrich_error, seqEnrich_error]
      show List.Sublist (l1 ++ l2) _
      rcases t1 with rfl | rfl <;> rcases t2 with rfl | rfl <;> decide
    | ok p2 =>
      rcases h3 : enrichStep3 env mp p2 with ⟨r3, l3, g3⟩
      have t3 : l3 = [] ∨ l3 = [Lookup.medtronicLoop] := by
        have h := enrichStep3_trace env mp p2
        rw [h3] at h
        exact h
      rw [seqEnrich_ok_eq h3]
      cases r3 with
      | error e =>
        rw [seqEnrich_error]
        show List.Sublist ((l1 ++ l2) ++ l3) _
        rcases t1 with rfl | rfl <;> rcases t2 with rfl | rfl <;> rcases t3 with rfl | rfl <;>
          decide
      | ok p3 =>
        rcases h4 : enrichStep4 env p3 with ⟨r4, l4, g4⟩
        have t4 : l4 = [] ∨ l4 = [Lookup.loopableUploadIds] := by
          have h := enrichStep4_trace env p3
          rw [h4] at h
          exact h
        rw [seqEnrich_ok_eq h4]
        show List.Sublist (((l1 ++ l2) ++ l3) ++ l4) _
        rcases t1 with rfl | rfl <;> rcases t2 with rfl | rfl <;> rcases t3 with rfl | rfl <;>
          rcases t4 with rfl | rfl <;> decide

theorem enrichParams_no_deviceData (env : Env) (cp mp : Bool) (p : Params) :
    Lookup.deviceData ∉ (enrichParams env cp mp p).2.1 := by
  intro hmem
  have hsub := (enrichParams_trace env cp mp p).subset hmem
  simp at hsub

theorem handleGetData_parse_error (env : Env) (req : Request) (m : String)
    (h : GetParams env.isValidISODate req.query = .error m) :
    handleGetData env req =
      { outcome := .errorOut error_invalid_parameters, lookups := [],
        logs := ["Error parsing date: " ++ m] } := by
  unfold handleGetData
  rw [h]

theorem handleGetData_denied (env : Env) (req : Request) (p : Params) (glg : List String)
    (hp : GetParams env.isValidISODate req.query = .ok p)
    (hd : gateDenies env (resolveTokenData env req) p.UserId = (true, glg)) :
    handleGetData env req =
      { outcome := .errorOut error_no_view_permisson, lookups := [], logs := glg } := by
  unfold handleGetData
  rw [hp]
  simp [hd]

theorem handleGetData_allowed (env : Env) (req : Request) (p : Params) (glg : List String)
    (hp : GetParams env.isValidISODate req.query = .ok p)
    (hd : gateDenies env (resolveTokenData env req) p.UserId = (false, glg)) :
    handleGetData env req =
      (match enrichParams env req.query.carelink.isSome req.query.medtronic.isSome p with
        | (.error e, ls, lg) => { outcome := .errorOut e, lookups := ls, logs := glg ++ lg }
        | (.ok p', ls, lg) =>
          { outcome := .query p', lookups := ls ++ [.deviceData], logs := glg ++ lg }) := by
  unfold handleGetData
  rw [hp]
  simp [hd]

theorem handleGetData_query_inv (env : Env) (req : Request) (p' : Params)
    (h : (handleGetData env req).outcome = .query p') :
    ∃ p0 ls lg glg, GetParams env.isValidISODate req.query = .ok p0 ∧
      gateDenies env (resolveTokenData env req) p0.UserId = (false, glg) ∧
      enrichParams env req.query.carelink.isSome req.query.medtronic.isSome p0 =
        (.ok p', ls, lg) ∧
      handleGetData env req =
        { outcome := .query p', lookups := ls ++ [.deviceData], logs := glg ++ lg } := by
  cases hp : GetParams env.isValidISODate req.query with
  | error m =>
    rw [handleGetData_parse_error env req m hp] at h
    simp at h
  | ok p0 =>
    rcases hd : gateDenies env (resolveTokenData env req) p0.UserId with ⟨b, glg⟩
    cases b with
    | true =>
      rw [handleGetData_denied env req p0 glg hp hd] at h
      simp at h
    | false =>
      have hall := handleGetData_allowed env req p0 glg hp hd
      rcases he : enrichParams env req.query.carelink.isSome req.query.medtronic.isSome p0 with
        ⟨r, ls, lg⟩
      rw [he] at hall
      cases r with
      | error e =>
        rw [hall] at h
        simp at h
      | ok pp =>
        rw [hall] at h
        simp only [Outcome.query.injEq] at h
        subst h
        exact ⟨p0, ls, lg, glg, rfl, hd, he, hall⟩

theorem handleGetData_errorOut_inv (env : Env) (req : Request) (e : detailedError)
    (h : (handleGetData env req).outcome = .errorOut e) :
    (handleGetData env req).lookups = [] ∨
      ∃ p0 lg glg, GetParams env.isValidISODate req.query = .ok p0 ∧
        gateDenies env (resolveTokenData env req) p0.UserId = (false, glg) ∧
        enrichParams env req.query.carelink.isSome req.query.medtronic.isSome p0 =
          (.error e, (handleGetData env req).lookups, lg) := by
  cases hp : GetParams env.isValidISODate req.query with
  | error m =>
    left
    rw [handleGetData_parse_error env req m hp]
  | ok p0 =>
    rcases hd : gateDenies env (resolveTokenData env req) p0.UserId with ⟨b, glg⟩
    cases b with
    | true =>
      left
      rw [handleGetData_denied env req p0 glg hp hd]
    | false =>
      have hall := handleGetData_allowed env req p0 glg hp hd
      rcases he : enrichParams env req.query.carelink.isSome req.query.medtronic.isSome p0 with
        ⟨r, ls, lg⟩
      rw [he] at hall
      cases r with
      | error e2 =>
        right
        rw [hall] at h ⊢
        simp only [Outcome.errorOut.injEq] at h
        subst h
        exact ⟨p0, lg, glg, rfl, hd, by rw [he]⟩
      | ok pp =>
        rw [hall] at h
        simp at h

theorem enrichParams_ok_inv (env : Env) (cp mp : Bool) (p0 p' : Params) (ls : List Lookup)
    (lg : List String) (h : enrichParams env cp mp p0 = (.ok p', ls, lg)) :
    ∃ p1 p2 p3 l1 l2 l3 l4 g1 g2 g3 g4,
      enrichStep1 env cp p0 = (.ok p1, l1, g1) ∧
      enrichStep2 env p1 = (.ok p2, l2, g2) ∧
      enrichStep3 env mp p2 = (.ok p3, l3, g3) ∧
      enrichStep4 env p3 = (.ok p', l4, g4) ∧
      ls = ((l1 ++ l2) ++ l3) ++ l4 ∧ lg = ((g1 ++ g2) ++ g3) ++ g4 := by
  unfold enrichParams at h
  obtain ⟨p3, ls123, lg123, l4, g4, hA, h4, hls, hlg⟩ := seqEnrich_ok_inv _ _ _ _ _ h
  obtain ⟨p2, ls12, lg12, l3, g3, hB, h3, hls2, hlg2⟩ := seqEnrich_ok_inv _ _ _ _ _ hA
  obtain ⟨p1, l1, g1, l2, g2, hC, h2, hls3, hlg3⟩ := seqEnrich_ok_inv _ _ _ _ _ hB
  exact ⟨p1, p2, p3, l1, l2, l3, l4, g1, g2, g3, g4, hC, h2, h3, h4,
    by rw [hls, hls2, hls3], by rw [hlg, hlg2, hlg3]⟩

/-- A concrete oracle environment used for witnesses and counterexamples:
session token `stk` resolves to user `A`; restricted token `rtk` resolves to
user `B` and authenticates; the gatekeeper knows no sharing relationships;
the store lookups succeed with fixed answers; every date string except
`bad` parses. -/
def probeEnv : Env :=
  { checkToken := fun tk => if tk == "stk" then some { UserID := "A", IsServer := false } else none,
    getRestrictedToken := fun tk =>
      if tk == "rtk" then .ok (some { UserID := "B", authenticatesReq := true })
      else .error "unknown token",
    userInGroup := fun _ _ => .ok [],
    hasMedtronicDirectData := fun _ => .ok false,
    getDexcomDataSource := fun _ => .ok (some "dexcom-source"),
    hasMedtronicLoopDataAfter := fun _ _ => .ok false,
    getLoopableMedtronicDirectUploadIdsAfter := fun _ _ => .ok ["u1"],
    getDeviceData := fun _ => [],
    isValidISODate := fun s => s != "bad" }

/-- A query with no parameters set, targeting the given user. -/
def plainQuery (uid : String) : RawQuery :=
  { userID := uid, typesCSV := none, subTypesCSV := none, startDate := none, endDate := none,
    carelink := none, medtronic := none, dexcom := none, restrictedTokens := none }

/-- C1 (amended; the amendment restricts the claim to requests whose query
parameters parse successfully): for every such request whose resolved
identity is absent, or is neither a server identity nor the target user and
whose sharing-service lookup either fails or reports neither root nor view
permission, the response is the uniform 403 envelope with code
`data_cant_view`; a lookup failure is logged (`Error looking up user in
group` with the cause) yet yields exactly the same envelope as ordinary
denial. -/
theorem claim_C1_gate_denial_uniform (env : Env) (req : Request) (p : Params)
    (hp : GetParams env.isValidISODate req.query = .ok p)
    (hdeny : resolveTokenData env req = none ∨
      ∃ t, resolveTokenData env req = some t ∧ t.IsServer = false ∧ t.UserID ≠ p.UserId ∧
        ((∃ m, env.userInGroup t.UserID p.UserId = .error m) ∨
         (∃ perms, env.userInGroup t.UserID p.UserId = .ok perms ∧
           perms.contains "root" = false ∧ perms.contains "view" = false))) :
    (handleGetData env req).outcome = .errorOut error_no_view_permisson ∧
      error_no_view_permisson.Status = 403 ∧
      error_no_view_permisson.Code = "data_cant_view" ∧
      (∀ t m, resolveTokenData env req = some t → t.IsServer = false →
        t.UserID ≠ p.UserId → env.userInGroup t.UserID p.UserId = .error m →
        ("Error looking up user in group " ++ m) ∈ (handleGetData env req).logs) := by
  have hgate : ∃ glg, gateDenies env (resolveTokenData env req) p.UserId = (true, glg) ∧
      (∀ t m, resolveTokenData env req = some t → t.IsServer = false →
        t.UserID ≠ p.UserId → env.userInGroup t.UserID p.UserId = .error m →
        ("Error looking up user in group " ++ m) ∈ glg) := by
    rcases hdeny with hnone | ⟨t, ht, hsrv, hne, hperm⟩
    · refine ⟨[], by rw [hnone]; rfl, ?_⟩
      intro t m ht2
      rw [hnone] at ht2
      exact absurd ht2 (by simp)
    · have hne2 : (t.UserID == p.UserId) = false := by simp [hne]
      rcases hperm with ⟨m, hm⟩ | ⟨perms, hpm, hr, hv⟩
      · refine ⟨["Error looking up user in group " ++ m], ?_, ?_⟩
        · rw [ht]
          unfold gateDenies userCanViewData
          simp [hsrv, hne2, hm]
        · intro t2 m2 ht2 hsrv2 hne3 hm2
          rw [ht] at ht2
          injection ht2 with ht3
          subst ht3
          rw [hm] at hm2
          injection hm2 with hm3
          subst hm3
          simp
      · refine ⟨[permsLogLine perms], ?_, ?_⟩
        · rw [ht]
          unfold gateDenies userCanViewData
          have hr2 : "root" ∉ perms := by simpa using hr
          have hv2 : "view" ∉ perms := by simpa using hv
          simp [hsrv, hne2, hpm, hr2, hv2]
        · intro t2 m2 ht2 hsrv2 hne3 hm2
          rw [ht] at ht2
          injection ht2 with ht3
          subst ht3
          rw [hpm] at hm2
          exact absurd hm2 (by simp)
  obtain ⟨glg, hd, hlog⟩ := hgate
  rw [handleGetData_denied env req p glg hp hd]
  exact ⟨rfl, rfl, rfl, hlog⟩

/-- C1 witness: a session-holding user `A` asking for user `Z` without any
sharing grant receives the `data_cant_view` envelope. -/
theorem claim_C1_witness :
    (handleGetData probeEnv
        { sessionToken := "stk", query := plainQuery "Z" }).outcome =
      .errorOut error_no_view_permisson := by
  have h := claim_C1_gate_denial_uniform probeEnv
    { sessionToken := "stk", query := plainQuery "Z" }
    (Params.mk "Z" [] [] none none false false none false "" []) rfl
    (.inr ⟨{ UserID := "A", IsServer := false }, rfl, rfl, by decide,
      .inr ⟨[], rfl, rfl, rfl⟩⟩)
  exact h.1

/-- C1 counterexample: the claim as stated is false: a request with an
unparsable `startDate` and no resolved identity is answered with the
`invalid_parameters` envelope, not the `data_cant_view` envelope, because
parameter parsing precedes authentication. -/
theorem claim_C1_counterexample :
    resolveTokenData probeEnv
        { sessionToken := "", query := { plainQuery "A" with startDate := some "bad" } } = none ∧
      (handleGetData probeEnv
          { sessionToken := "", query := { plainQuery "A" with startDate := some "bad" } }).outcome =
        .errorOut error_invalid_parameters ∧
      (handleGetData probeEnv
          { sessionToken := "", query := { plainQuery "A" with startDate := some "bad" } }).outcome ≠
        .errorOut error_no_view_permisson := by
  refine ⟨rfl, rfl, ?_⟩
  decide

/-- C2: identity resolution follows a strict first-match order with no
merging: a non-empty session-token header is validated alone (the restricted
token is never consulted, so the result is unchanged under any change of the
restricted-token oracle); with no header token, a single `restricted_token`
query value is fetched and accepted only when it resolves and authenticates
the request, yielding the token's bound user with `IsServer = false`; in
every other case there is no identity, and a request with no identity (and
parsable parameters) is denied. -/
theorem claim_C2_identity_resolution (env env2 : Env) (req : Request) :
    (req.sessionToken ≠ "" →
      resolveTokenData env req = env.checkToken req.sessionToken) ∧
    (req.sessionToken ≠ "" → env2.checkToken = env.checkToken →
      resolveTokenData env2 req = resolveTokenData env req) ∧
    (req.sessionToken = "" → ∀ t, req.query.restrictedTokens = some [t] →
      resolveTokenData env req =
        (match env.getRestrictedToken t with
          | .ok (some rt) =>
            if rt.authenticatesReq then some { UserID := rt.UserID, IsServer := false } else none
          | .ok none => none
          | .error _ => none)) ∧
    (req.sessionToken = "" → (∀ t, req.query.restrictedTokens ≠ some [t]) →
      resolveTokenData env req = none) ∧
    (∀ p, GetParams env.isValidISODate req.query = .ok p →
      resolveTokenData env req = none →
      (handleGetData env req).outcome = .errorOut error_no_view_permisson) := by
  refine ⟨?_, ?_, ?_, ?_, ?_⟩
  · intro h
    simp [resolveTokenData, h]
  · intro h heq
    simp [resolveTokenData, h, heq]
  · intro h t ht
    rw [resolveTokenData, if_neg (by simp [h]), ht]
    cases hg : env.getRestrictedToken t with
    | error m => simp [hg]
    | ok o =>
      cases o with
      | none => simp [hg]
      | some rt => simp [hg]
  · intro h hnot
    rw [resolveTokenData, if_neg (by simp [h])]
    cases hr : req.query.restrictedTokens with
    | none => rfl
    | some ts =>
      cases ts with
      | nil => rfl
      | cons a rest =>
        cases rest with
        | nil => exact absurd hr (hnot a)
        | cons b rest2 => rfl
  · intro p hp hnone
    rw [handleGetData_denied env req p [] hp (by rw [hnone]; rfl)]

/-- C2 witness: with no header token, the restricted token `rtk` resolves to
user `B` with `IsServer = false`; with an invalid header token present, the
valid restricted token in the query is ignored and no identity results. -/
theorem claim_C2_witness :
    resolveTokenData probeEnv
        { sessionToken := "",
          query := { plainQuery "B" with restrictedTokens := some ["rtk"] } } =
      some { UserID := "B", IsServer := false } ∧
    resolveTokenData probeEnv
        { sessionToken := "zzz",
          query := { plainQuery "B" with restrictedTokens := some ["rtk"] } } = none := by
  constructor
  · have h := (claim_C2_identity_resolution probeEnv probeEnv
      { sessionToken := "",
        query := { plainQuery "B" with restrictedTokens := some ["rtk"] } }).2.2.1
      rfl "rtk" rfl
    rw [h]
    rfl
  · have h := (claim_C2_identity_resolution probeEnv probeEnv
      { sessionToken := "zzz",
        query := { plainQuery "B" with restrictedTokens := some ["rtk"] } }).1
      (by decide)
    rw [h]
    rfl

theorem handleGetData_lookups_sublist (env : Env) (req : Request) :
    List.Sublist (handleGetData env req).lookups
      [.medtronicDirect, .dexcomSource, .medtronicLoop, .loopableUploadIds, .deviceData] := by
  cases hp : GetParams env.isValidISODate req.query with
  | error m =>
    rw [handleGetData_parse_error env req m hp]
    exact List.nil_sublist _
  | ok p0 =>
    rcases hd : gateDenies env (resolveTokenData env req) p0.UserId with ⟨b, glg⟩
    cases b with
    | true =>
      rw [handleGetData_denied env req p0 glg hp hd]
      exact List.nil_sublist _
    | false =>
      have hall := handleGetData_allowed env req p0 glg hp hd
      have htr := enrichParams_trace env req.query.carelink.isSome req.query.medtronic.isSome p0
      rcases he : enrichParams env req.query.carelink.isSome req.query.medtronic.isSome p0 with
        ⟨r, ls, lg⟩
      rw [he] at hall htr
      cases r with
      | error e =>
        rw [hall]
        exact htr.trans (by decide)
      | ok pp =>
        rw [hall]
        show List.Sublist (ls ++ [Lookup.deviceData]) _
        have hdd : List.Sublist [Lookup.deviceData] [Lookup.deviceData] := List.Sublist.refl _
        simpa using htr.append hdd

/-- C3 (amended; the actual stage order parses query parameters first): the
pipeline runs Filter parsing, then Authenticator and Authorization Gate,
then the enrichment lookups in their fixed order, then the Query Executor;
a parse failure is answered with `invalid_parameters` before any identity
check, a gate denial on a parsable request is answered with the denial
envelope before any store lookup, the store operations happen in a fixed
order, and the main query runs exactly when the outcome streams. -/
theorem claim_C3_stage_order (env : Env) (req : Request) :
    (∀ m, GetParams env.isValidISODate req.query = .error m →
      (handleGetData env req).outcome = .errorOut error_invalid_parameters ∧
      (handleGetData env req).lookups = []) ∧
    (∀ p, GetParams env.isValidISODate req.query = .ok p →
      (gateDenies env (resolveTokenData env req) p.UserId).1 = true →
      (handleGetData env req).outcome = .errorOut error_no_view_permisson ∧
      (handleGetData env req).lookups = []) ∧
    List.Sublist (handleGetData env req).lookups
      [.medtronicDirect, .dexcomSource, .medtronicLoop, .loopableUploadIds, .deviceData] ∧
    ((∃ p, (handleGetData env req).outcome = .query p) ↔
      Lookup.deviceData ∈ (handleGetData env req).lookups) := by
  refine ⟨?_, ?_, ?_, ?_⟩
  · intro m hm
    rw [handleGetData_parse_error env req m hm]
    exact ⟨rfl, rfl⟩
  · intro p hp hd
    rcases hg : gateDenies env (resolveTokenData env req) p.UserId with ⟨b, glg⟩
    rw [hg] at hd
    simp only at hd
    subst hd
    rw [handleGetData_denied env req p glg hp hg]
    exact ⟨rfl, rfl⟩
  · exact handleGetData_lookups_sublist env req
  · constructor
    · rintro ⟨p, hq⟩
      obtain ⟨p0, ls, lg, glg, _, _, _, heq⟩ := handleGetData_query_inv env req p hq
      rw [heq]
      simp
    · intro hmem
      cases ho : (handleGetData env req).outcome with
      | query p => exact ⟨p, rfl⟩
      | errorOut e =>
        exfalso
        rcases handleGetData_errorOut_inv env req e ho with hnil | ⟨p0, lg, glg, _, _, he⟩
        · rw [hnil] at hmem
          simp at hmem
        · have hnd := enrichParams_no_deviceData env req.query.carelink.isSome
            req.query.medtronic.isSome p0
          rw [he] at hnd
          exact hnd hmem

/-- C3 witness: a parsable request from a caller without permission is
denied without performing any store lookup. -/
theorem claim_C3_witness :
    (handleGetData probeEnv { sessionToken := "", query := plainQuery "A" }).outcome =
      .errorOut error_no_view_permisson ∧
    (handleGetData probeEnv { sessionToken := "", query := plainQuery "A" }).lookups = [] := by
  exact (claim_C3_stage_order probeEnv { sessionToken := "", query := plainQuery "A" }).2.1
    (Params.mk "A" [] [] none none false false none false "" []) rfl rfl

/-- C3 counterexample: the claim as stated is false: for a request the gate
would deny (no resolvable identity) but whose `endDate` fails to parse, the
response is the `invalid_parameters` envelope, not the denial envelope,
because filter parsing runs before the authenticator and the gate. -/
theorem claim_C3_counterexample :
    gateDenies probeEnv
        (resolveTokenData probeEnv
          { sessionToken := "", query := { plainQuery "C" with endDate := some "bad" } }) "C" =
      (true, []) ∧
    (handleGetData probeEnv
        { sessionToken := "", query := { plainQuery "C" with endDate := some "bad" } }).outcome =
      .errorOut error_invalid_parameters ∧
    (handleGetData probeEnv
        { sessionToken := "", query := { plainQuery "C" with endDate := some "bad" } }).outcome ≠
      .errorOut error_no_view_permisson := by
  refine ⟨rfl, rfl, ?_⟩
  decide

/-- C4: for every request that reaches the main query, the resolved filter
satisfies the enrichment rules: with `carelink` omitted and no
manufacturer-direct data, Carelink is true; with `medtronic` omitted and no
loop-integrated data after the boundary date, Medtronic is true and the
upload-id lookup is not performed; and whenever Medtronic resolves to false
the upload ids come from the store lookup and MedtronicDate is the boundary
date 2017-09-01. -/
theorem claim_C4_enrichment_rules (env : Env) (req : Request) (p : Params)
    (h : (handleGetData env req).outcome = .query p) :
    (req.query.carelink = none → env.hasMedtronicDirectData p.UserId = .ok false →
      p.Carelink = true) ∧
    (req.query.medtronic = none →
      env.hasMedtronicLoopDataAfter p.UserId MedtronicLoopBoundaryDate = .ok false →
      p.Medtronic = true ∧ Lookup.loopableUploadIds ∉ (handleGetData env req).lookups) ∧
    (p.Medtronic = false →
      p.MedtronicDate = MedtronicLoopBoundaryDate ∧
      env.getLoopableMedtronicDirectUploadIdsAfter p.UserId MedtronicLoopBoundaryDate =
        .ok p.MedtronicUploadIds) ∧
    MedtronicLoopBoundaryDate = "2017-09-01" := by
  obtain ⟨p0, ls, lg, glg, hp, hd, he, heq⟩ := handleGetData_query_inv env req p h
  obtain ⟨p1, p2, p3, l1, l2, l3, l4, g1, g2, g3, g4, h1, h2, h3, h4, hls, hlg⟩ :=
    enrichParams_ok_inv env _ _ p0 p ls lg he
  obtain ⟨-, c1⟩ := enrichStep1_ok_cases env _ p0 p1 l1 g1 h1
  obtain ⟨-, c2⟩ := enrichStep2_ok_cases env p1 p2 l2 g2 h2
  obtain ⟨-, c3⟩ := enrichStep3_ok_cases env _ p2 p3 l3 g3 h3
  obtain ⟨-, c4⟩ := enrichStep4_ok_cases env p3 p l4 g4 h4
  have f1 : p1.UserId = p0.UserId ∧ p1.Medtronic = p0.Medtronic ∧
      (l1 = [] ∨ l1 = [Lookup.medtronicDirect]) := by
    rcases c1 with ⟨-, hpp, hll⟩ | ⟨-, hll, ⟨-, hpp⟩ | ⟨-, hpp⟩⟩ <;> subst hpp <;>
      exact ⟨rfl, rfl, by simp [hll]⟩
  have f2 : p2.UserId = p1.UserId ∧ p2.Carelink = p1.Carelink ∧ p2.Medtronic = p1.Medtronic ∧
      (l2 = [] ∨ l2 = [Lookup.dexcomSource]) := by
    rcases c2 with ⟨-, hpp, hll⟩ | ⟨-, hll, ds, -, hpp⟩ <;> subst hpp <;>
      exact ⟨rfl, rfl, rfl, by simp [hll]⟩
  have f3 : p3.UserId = p2.UserId ∧ p3.Carelink = p2.Carelink ∧
      (l3 = [] ∨ l3 = [Lookup.medtronicLoop]) := by
    rcases c3 with ⟨-, hpp, hll⟩ | ⟨-, hll, ⟨-, hpp⟩ | ⟨-, hpp⟩⟩ <;> subst hpp <;>
      exact ⟨rfl, rfl, by simp [hll]⟩
  have f4 : p.UserId = p3.UserId ∧ p.Carelink = p3.Carelink ∧ p.Medtronic = p3.Medtronic := by
    rcases c4 with ⟨-, hpp, -⟩ | ⟨-, -, ids, -, hpp⟩ <;> subst hpp <;> exact ⟨rfl, rfl, rfl⟩
  have huid : p.UserId = p0.UserId := by rw [f4.1, f3.1, f2.1, f1.1]
  have huid2 : p.UserId = p2.UserId := by rw [f4.1, f3.1]
  have huid3 : p.UserId = p3.UserId := f4.1
  refine ⟨?_, ?_, ?_, rfl⟩
  · intro hcl ho
    have hcp : req.query.carelink.isSome = false := by rw [hcl]; rfl
    rw [huid] at ho
    rcases c1 with ⟨hcpt, -, -⟩ | ⟨-, -, ⟨-, hpp⟩ | ⟨hor, hpp⟩⟩
    · rw [hcp] at hcpt
      exact absurd hcpt (by decide)
    · rw [f4.2.1, f3.2.1, f2.2.1, hpp]
    · rw [hor] at ho
      exact absurd (Except.ok.inj ho) (by decide)
  · intro hml ho
    have hmp : req.query.medtronic.isSome = false := by rw [hml]; rfl
    rw [huid2] at ho
    rcases c3 with ⟨hmpt, -, -⟩ | ⟨-, hl3, ⟨-, hpp⟩ | ⟨hor, hpp⟩⟩
    · rw [hmp] at hmpt
      exact absurd hmpt (by decide)
    · have hm3 : p3.Medtronic = true := by rw [hpp]
      have hl4 : l4 = [] := by
        rcases c4 with ⟨-, -, hll⟩ | ⟨hmf, -, -⟩
        · exact hll
        · rw [hm3] at hmf
          exact absurd hmf (by decide)
      constructor
      · rw [f4.2.2, hm3]
      · have hlk : (handleGetData env req).lookups = ls ++ [Lookup.deviceData] := by rw [heq]
        rw [hlk, hls, hl3, hl4]
        rcases f1.2.2 with rfl | rfl <;> rcases f2.2.2.2 with rfl | rfl <;> decide
    · rw [hor] at ho
      exact absurd (Except.ok.inj ho) (by decide)
  · intro hm
    rw [f4.2.2] at hm
    rcases c4 with ⟨hmt, -, -⟩ | ⟨-, -, ids, hor, hpp⟩
    · rw [hm] at hmt
      exact absurd hmt (by decide)
    · constructor
      · rw [hpp]
      · rw [huid3, hpp]
        exact hor

/-- C4 witness: a self-request with no parameters, against a store with no
Medtronic direct data and no loop data, resolves Carelink and Medtronic to
true and performs no upload-id lookup. -/
theorem claim_C4_witness :
    (handleGetData probeEnv { sessionToken := "stk", query := plainQuery "A" }).outcome =
      .query (Params.mk "A" [] [] none none true false (some "dexcom-source") true "" []) ∧
    (Params.mk "A" [] [] none none true false (some "dexcom-source") true "" []).Carelink =
      true ∧
    (Params.mk "A" [] [] none none true false (some "dexcom-source") true "" []).Medtronic =
      true ∧
    Lookup.loopableUploadIds ∉
      (handleGetData probeEnv { sessionToken := "stk", query := plainQuery "A" }).lookups := by
  have houtcome :
      (handleGetData probeEnv { sessionToken := "stk", query := plainQuery "A" }).outcome =
        .query (Params.mk "A" [] [] none none true false (some "dexcom-source") true "" []) := rfl
  have h := claim_C4_enrichment_rules probeEnv
    { sessionToken := "stk", query := plainQuery "A" }
    (Params.mk "A" [] [] none none true false (some "dexcom-source") true "" []) houtcome
  exact ⟨houtcome, h.1 rfl rfl, (h.2.1 rfl rfl).1, (h.2.1 rfl rfl).2⟩

theorem enrichStep1_err_eq {env : Env} {p : Params} {m : String}
    (ho : env.hasMedtronicDirectData p.UserId = .error m) :
    enrichStep1 env false p =
      (.error error_running_query, [.medtronicDirect],
        ["Error while querying for Medtronic Direct data: " ++ m]) := by
  simp [enrichStep1, ho]

theorem enrichStep2_err_eq {env : Env} {p : Params} {m : String} (hdx : p.Dexcom = false)
    (ho : env.getDexcomDataSource p.UserId = .error m) :
    enrichStep2 env p =
      (.error error_running_query, [.dexcomSource],
        ["Error while querying for Dexcom data source: " ++ m]) := by
  simp [enrichStep2, hdx, ho]

theorem enrichStep3_err_eq {env : Env} {p : Params} {m : String}
    (ho : env.hasMedtronicLoopDataAfter p.UserId MedtronicLoopBoundaryDate = .error m) :
    enrichStep3 env false p =
      (.error error_running_query, [.medtronicLoop],
        ["Error while querying for Medtronic Loop data: " ++ m]) := by
  simp [enrichStep3, ho]

theorem enrichStep4_err_eq {env : Env} {p : Params} {m : String} (hm : p.Medtronic = false)
    (ho : env.getLoopableMedtronicDirectUploadIdsAfter p.UserId MedtronicLoopBoundaryDate =
      .error m) :
    enrichStep4 env p =
      (.error error_running_query, [.loopableUploadIds],
        ["Error while querying for Loopable Medtronic Direct upload ids: " ++ m]) := by
  simp [enrichStep4, hm, ho]

/-- C5: the enrichment lookups run strictly in sequence (the performed
lookups always form a subsequence of the fixed order), any pre-stream error
outcome means the main device-data query never ran, and whichever of the
four lookups is reached and fails aborts the request with the constant
`data_store_error` envelope (HTTP 500, no internal cause attached) while the
true cause goes to the log. -/
theorem claim_C5_fail_fast_sequence (env : Env) (req : Request) :
    error_running_query.Status = 500 ∧ error_running_query.Code = "data_store_error" ∧
    error_running_query.InternalMessage = "" ∧
    List.Sublist (handleGetData env req).lookups
      [.medtronicDirect, .dexcomSource, .medtronicLoop, .loopableUploadIds, .deviceData] ∧
    (∀ e, (handleGetData env req).outcome = .errorOut e →
      Lookup.deviceData ∉ (handleGetData env req).lookups) ∧
    (∀ p0 glg m, GetParams env.isValidISODate req.query = .ok p0 →
      gateDenies env (resolveTokenData env req) p0.UserId = (false, glg) →
      req.query.carelink = none →
      env.hasMedtronicDirectData p0.UserId = .error m →
      handleGetData env req =
        { outcome := .errorOut error_running_query, lookups := [.medtronicDirect],
          logs := glg ++ ["Error while querying for Medtronic Direct data: " ++ m] }) ∧
    (∀ p0 glg p1 l1 g1 m, GetParams env.isValidISODate req.query = .ok p0 →
      gateDenies env (resolveTokenData env req) p0.UserId = (false, glg) →
      enrichStep1 env req.query.carelink.isSome p0 = (.ok p1, l1, g1) →
      p1.Dexcom = false →
      env.getDexcomDataSource p1.UserId = .error m →
      handleGetData env req =
        { outcome := .errorOut error_running_query, lookups := l1 ++ [.dexcomSource],
          logs := glg ++ (g1 ++ ["Error while querying for Dexcom data source: " ++ m]) }) ∧
    (∀ p0 glg p1 p2 l1 l2 g1 g2 m, GetParams env.isValidISODate req.query = .ok p0 →
      gateDenies env (resolveTokenData env req) p0.UserId = (false, glg) →
      enrichStep1 env req.query.carelink.isSome p0 = (.ok p1, l1, g1) →
      enrichStep2 env p1 = (.ok p2, l2, g2) →
      req.query.medtronic = none →
      env.hasMedtronicLoopDataAfter p2.UserId MedtronicLoopBoundaryDate = .error m →
      handleGetData env req =
        { outcome := .errorOut error_running_query,
          lookups := (l1 ++ l2) ++ [.medtronicLoop],
          logs := glg ++
            ((g1 ++ g2) ++ ["Error while querying for Medtronic Loop data: " ++ m]) }) ∧
    (∀ p0 glg p1 p2 p3 l1 l2 l3 g1 g2 g3 m, GetParams env.isValidISODate req.query = .ok p0 →
      gateDenies env (resolveTokenData env req) p0.UserId = (false, glg) →
      enrichStep1 env req.query.carelink.isSome p0 = (.ok p1, l1, g1) →
      enrichStep2 env p1 = (.ok p2, l2, g2) →
      enrichStep3 env req.query.medtronic.isSome p2 = (.ok p3, l3, g3) →
      p3.Medtronic = false →
      env.getLoopableMedtronicDirectUploadIdsAfter p3.UserId MedtronicLoopBoundaryDate =
        .error m →
      handleGetData env req =
        { outcome := .errorOut error_running_query,
          lookups := ((l1 ++ l2) ++ l3) ++ [.loopableUploadIds],
          logs := glg ++ (((g1 ++ g2) ++ g3) ++
            ["Error while querying for Loopable Medtronic Direct upload ids: " ++ m]) }) := by
  refine ⟨rfl, rfl, rfl, ?_, ?_, ?_, ?_, ?_, ?_⟩
  · exact handleGetData_lookups_sublist env req
  · intro e he
    rcases handleGetData_errorOut_inv env req e he with hnil | ⟨p0, lg, glg, _, _, hee⟩
    · rw [hnil]
      simp
    · have hnd := enrichParams_no_deviceData env req.query.carelink.isSome
        req.query.medtronic.isSome p0
      rw [hee] at hnd
      exact hnd
  · intro p0 glg m hp hd hcl ho
    have hcp : req.query.carelink.isSome = false := by rw [hcl]; rfl
    rw [handleGetData_allowed env req p0 glg hp hd]
    rw [show enrichParams env req.query.carelink.isSome req.query.medtronic.isSome p0 =
        (.error error_running_query, [.medtronicDirect],
          ["Error while querying for Medtronic Direct data: " ++ m]) from by
      unfold enrichParams
      rw [hcp, enrichStep1_err_eq ho, seqEnrich_error, seqEnrich_error, seqEnrich_error]]
  · intro p0 glg p1 l1 g1 m hp hd h1 hdx ho
    rw [handleGetData_allowed env req p0 glg hp hd]
    rw [show enrichParams env req.query.carelink.isSome req.query.medtronic.isSome p0 =
        (.error error_running_query, l1 ++ [.dexcomSource],
          g1 ++ ["Error while querying for Dexcom data source: " ++ m]) from by
      unfold enrichParams
      rw [h1, seqEnrich_ok_eq (enrichStep2_err_eq hdx ho), seqEnrich_error, seqEnrich_error]]
  · intro p0 glg p1 p2 l1 l2 g1 g2 m hp hd h1 h2 hml ho
    have hmp : req.query.medtronic.isSome = false := by rw [hml]; rfl
    rw [handleGetData_allowed env req p0 glg hp hd]
    rw [show enrichParams env req.query.carelink.isSome req.query.medtronic.isSome p0 =
        (.error error_running_query, (l1 ++ l2) ++ [.medtronicLoop],
          (g1 ++ g2) ++ ["Error while querying for Medtronic Loop data: " ++ m]) from by
      unfold enrichParams
      rw [h1, seqEnrich_ok_eq h2, hmp, seqEnrich_ok_eq (enrichStep3_err_eq ho), seqEnrich_error]]
  · intro p0 glg p1 p2 p3 l1 l2 l3 g1 g2 g3 m hp hd h1 h2 h3 hm ho
    rw [handleGetData_allowed env req p0 glg hp hd]
    rw [show enrichParams env req.query.carelink.isSome req.query.medtronic.isSome p0 =
        (.error error_running_query, ((l1 ++ l2) ++ l3) ++ [.loopableUploadIds],
          ((g1 ++ g2) ++ g3) ++
            ["Error while querying for Loopable Medtronic Direct upload ids: " ++ m]) from by
      unfold enrichParams
      rw [h1, seqEnrich_ok_eq h2, seqEnrich_ok_eq h3,
        seqEnrich_ok_eq (enrichStep4_err_eq hm ho)]]

/-- C5 witness: when the Medtronic-direct lookup fails for an authorized
self-request, the handler aborts with the store-error envelope after exactly
that one lookup, logging the cause. -/
theorem claim_C5_witness :
    handleGetData { probeEnv with hasMedtronicDirectData := fun _ => .error "boom" }
        { sessionToken := "stk", query := plainQuery "A" } =
      { outcome := .errorOut error_running_query, lookups := [.medtronicDirect],
        logs := ["Error while querying for Medtronic Direct data: " ++ "boom"] } := by
  have h := (claim_C5_fail_fast_sequence
      { probeEnv with hasMedtronicDirectData := fun _ => .error "boom" }
      { sessionToken := "stk", query := plainQuery "A" }).2.2.2.2.2.1
    (Params.mk "A" [] [] none none false false none false "" []) [] "boom" rfl rfl rfl rfl
  simpa using h

/-- C6: a request whose `startDate` or `endDate` fails ISO-8601 parsing is
answered with the `invalid_parameters` envelope, whose HTTP status is the
server-error value 500 — a client-input error carried with a server-error
status, as the spec flags. -/
theorem claim_C6_invalid_parameters (env : Env) (req : Request)
    (h : (∃ s, req.query.startDate = some s ∧ env.isValidISODate s = false) ∨
         (∃ s, req.query.endDate = some s ∧ env.isValidISODate s = false)) :
    (handleGetData env req).outcome = .errorOut error_invalid_parameters ∧
    error_invalid_parameters.Code = "invalid_parameters" ∧
    error_invalid_parameters.Status = 500 ∧
    (∀ t g, (jsonError ResponseWriter.init error_invalid_parameters t g).writer.status =
      some 500) := by
  have hge : GetParams env.isValidISODate req.query = .error "could not parse date" := by
    unfold GetParams
    rcases h with ⟨s, hs, hv⟩ | ⟨s, hs, hv⟩ <;> simp [hs, hv]
  rw [handleGetData_parse_error env req _ hge]
  exact ⟨rfl, rfl, rfl, fun t g => rfl⟩

/-- C6 witness: `startDate=bad` yields the `invalid_parameters` outcome even
for an authenticated self-request. -/
theorem claim_C6_witness :
    (handleGetData probeEnv
        { sessionToken := "stk",
          query := { plainQuery "A" with startDate := some "bad" } }).outcome =
      .errorOut error_invalid_parameters := by
  exact (claim_C6_invalid_parameters probeEnv
    { sessionToken := "stk", query := { plainQuery "A" with startDate := some "bad" } }
    (.inl ⟨"bad", rfl, rfl⟩)).1

/-- C7: the streaming serializer commits status 200, writes exactly the JSON
array whose elements are the non-empty documents that marshal successfully
(in cursor order, with intact comma separation), writes exactly the two
brackets when no document is written, and logs one line per document whose
serialization fails. -/
theorem claim_C7_streaming_array (marshal : Doc → Except String String) (docs : List Doc) :
    (processResults marshal ResponseWriter.init docs).1.status = some 200 ∧
    (processResults marshal ResponseWriter.init docs).1.body =
      jsonArrayBody (survivors marshal docs) ∧
    jsonArrayBody [] = "[]" ∧
    (processResults marshal ResponseWriter.init docs).2 = failLogs marshal docs := by
  rw [processResults_eq]
  exact ⟨rfl, rfl, rfl, rfl⟩

theorem processLoopIter_closeCount (marshal : Doc → Except String String)
    (panicAt : Option Nat) :
    ∀ (docs : List Doc) (step closeCount : Nat) (res : ResponseWriter) (wc : Nat),
      (match processLoopIter marshal panicAt docs step closeCount res wc with
        | .ok (it, _, _) => it.closeCount
        | .error (it, _) => it.closeCount) = closeCount := by
  intro docs
  induction docs with
  | nil => intro step cc res wc; rfl
  | cons d rest ih =>
    intro step cc res wc
    unfold processLoopIter
    by_cases hp : (panicAt == some step) = true
    · simp [hp]
    · rw [Bool.not_eq_true] at hp
      by_cases hl : d.length > 0
      · cases hm : marshal d with
        | error m => simp [hp, hl, hm, ih]
        | ok bytes => simp [hp, hl, hm, ih]
      · simp [hp, hl, ih]

theorem processResultsIter_closeCount (marshal : Doc → Except String String)
    (panicAt : Option Nat) (it : IterState) (res : ResponseWriter) :
    (match processResultsIter marshal panicAt it res with
      | .ok (st, _) => st.closeCount
      | .error (st, _) => st.closeCount) = it.closeCount := by
  have h := processLoopIter_closeCount marshal panicAt it.remaining 0 it.closeCount
    ((res.addHeader "Content-Type" "application/json").write "[") 0
  cases hres : processLoopIter marshal panicAt it.remaining 0 it.closeCount
      ((res.addHeader "Content-Type" "application/json").write "[") 0 with
  | error pr =>
    obtain ⟨it2, r2⟩ := pr
    rw [hres] at h
    simp only [processResultsIter, hres]
    simpa using h
  | ok pr =>
    obtain ⟨it2, r2, wc⟩ := pr
    rw [hres] at h
    simp only [processResultsIter, hres]
    simpa using h

/-- C8: on every execution of the data phase the cursor's Close runs exactly
once — on normal exhaustion, on a mid-stream per-document marshal failure,
and when a panic interrupts streaming at any point (the deferred Close runs
during unwinding) — and the streaming serializer itself never closes the
cursor, so Close is never called twice. -/
theorem claim_C8_cursor_closed_once (env : Env) (marshal : Doc → Except String String)
    (panicAt : Option Nat) (p : Params) (response : ResponseWriter) :
    (dataPhase env marshal panicAt p response).1.closeCount = 1 ∧
    (match processResultsIter marshal panicAt
        { remaining := env.getDeviceData p, closeCount := 0 } response with
      | .ok (it, _) => it.closeCount
      | .error (it, _) => it.closeCount) = 0 := by
  have h := processResultsIter_closeCount marshal panicAt
    { remaining := env.getDeviceData p, closeCount := 0 } response
  constructor
  · cases hres : processResultsIter marshal panicAt
        { remaining := env.getDeviceData p, closeCount := 0 } response with
    | ok pr =>
      obtain ⟨it, r⟩ := pr
      rw [hres] at h
      simp only at h
      simp only [dataPhase, hres]
      simp [IterState.close, h]
    | error pr =>
      obtain ⟨it, r⟩ := pr
      rw [hres] at h
      simp only at h
      simp only [dataPhase, hres]
      simp [IterState.close, h]
  · exact h

theorem ResponseWriter.body_writeHeader (w : ResponseWriter) (s : Nat) :
    (w.writeHeader s).body = w.body := by
  cases h : w.status <;> simp [ResponseWriter.writeHeader, h]

theorem ResponseWriter.body_write (w : ResponseWriter) (s : String) :
    (w.write s).body = w.body ++ s := by
  cases h : w.status <;> simp [ResponseWriter.write, h]

/-- C9: every `jsonError` response carries the freshly drawn identifier in
its `Id` field and advances the supply; the body is exactly the serialized
envelope, whose serialization ignores `InternalMessage`, so the written
response is identical for any two internal causes; the internal cause does
appear verbatim inside the log line, alongside the identifier, code,
elapsed time and user-safe message, which all appear there too; and identifiers drawn from distinct
supply states are distinct, so successive occurrences get distinct ids. -/
theorem claim_C9_fresh_id_private_cause (res res2 : ResponseWriter) (d d2 : detailedError)
    (t t2 m m2 : String) (g g2 : Nat) :
    (jsonError res d t g).sent.Id = (uuidNewV4 g).1 ∧
    (jsonError res d t g).gen = (uuidNewV4 g).2 ∧
    (jsonError res d t g).writer.body =
      res.body ++ serializeDetailedError (jsonError res d t g).sent ∧
    serializeDetailedError { d with InternalMessage := m } = serializeDetailedError d ∧
    (jsonError res (d.setInternalMessage m) t g).writer =
      (jsonError res (d.setInternalMessage m2) t g).writer ∧
    List.IsInfix m.data (jsonError res (d.setInternalMessage m) t g).logLine.data ∧
    List.IsInfix (uuidNewV4 g).1.data (jsonError res d t g).logLine.data ∧
    List.IsInfix d.Code.data (jsonError res d t g).logLine.data ∧
    List.IsInfix t.data (jsonError res d t g).logLine.data ∧
    List.IsInfix d.Message.data (jsonError res d t g).logLine.data ∧
    (g ≠ g2 → (jsonError res d t g).sent.Id ≠ (jsonError res2 d2 t2 g2).sent.Id) := by
  refine ⟨rfl, rfl, ?_, rfl, rfl, ?_, ?_, ?_, ?_, ?_, ?_⟩
  · show (((res.addHeader "content-type" "application/json").writeHeader _).write _).body = _
    rw [ResponseWriter.body_write, ResponseWriter.body_writeHeader]
    rfl
  · refine ⟨("api/data [" ++ (uuidNewV4 g).1 ++ "][" ++ d.Code ++ "] failed after [" ++ t ++
      "]secs with error [" ++ d.Message ++ "][").data, ("] " : String).data, ?_⟩
    show _ = (("api/data [" ++ (uuidNewV4 g).1 ++ "][" ++ d.Code ++ "] failed after [" ++ t ++
      "]secs with error [" ++ d.Message ++ "][" ++ m ++ "] " : String)).data
    simp [String.data_append, List.append_assoc]
  · refine ⟨("api/data [" : String).data, ("][" ++ d.Code ++ "] failed after [" ++ t ++
      "]secs with error [" ++ d.Message ++ "][" ++ d.InternalMessage ++ "] " : String).data, ?_⟩
    show _ = (("api/data [" ++ (uuidNewV4 g).1 ++ "][" ++ d.Code ++ "] failed after [" ++ t ++
      "]secs with error [" ++ d.Message ++ "][" ++ d.InternalMessage ++ "] " : String)).data
    simp [String.data_append, List.append_assoc]
  · refine ⟨("api/data [" ++ (uuidNewV4 g).1 ++ "][" : String).data,
      ("] failed after [" ++ t ++ "]secs with error [" ++ d.Message ++ "][" ++
        d.InternalMessage ++ "] " : String).data, ?_⟩
    show _ = (("api/data [" ++ (uuidNewV4 g).1 ++ "][" ++ d.Code ++ "] failed after [" ++ t ++
      "]secs with error [" ++ d.Message ++ "][" ++ d.InternalMessage ++ "] " : String)).data
    simp [String.data_append, List.append_assoc]
  · refine ⟨("api/data [" ++ (uuidNewV4 g).1 ++ "][" ++ d.Code ++ "] failed after [" : String).data,
      ("]secs with error [" ++ d.Message ++ "][" ++ d.InternalMessage ++ "] " : String).data, ?_⟩
    show _ = (("api/data [" ++ (uuidNewV4 g).1 ++ "][" ++ d.Code ++ "] failed after [" ++ t ++
      "]secs with error [" ++ d.Message ++ "][" ++ d.InternalMessage ++ "] " : String)).data
    simp [String.data_append, List.append_assoc]
  · refine ⟨("api/data [" ++ (uuidNewV4 g).1 ++ "][" ++ d.Code ++ "] failed after [" ++ t ++
      "]secs with error [" : String).data,
      ("][" ++ d.InternalMessage ++ "] " : String).data, ?_⟩
    show _ = (("api/data [" ++ (uuidNewV4 g).1 ++ "][" ++ d.Code ++ "] failed after [" ++ t ++
      "]secs with error [" ++ d.Message ++ "][" ++ d.InternalMessage ++ "] " : String)).data
    simp [String.data_append, List.append_assoc]
  · intro hne heq
    apply hne
    have hlen := congrArg String.length heq
    have hlen2 : (List.replicate (g + 1) 'u').length = (List.replicate (g2 + 1) 'u').length :=
      hlen
    rw [List.length_replicate, List.length_replicate] at hlen2
    omega

/-- C9 witness: two successive draws of the fresh-id supply give two
occurrences with distinct identifiers. -/
theorem claim_C9_witness :
    (jsonError ResponseWriter.init error_running_query "0.1" 0).sent.Id ≠
      (jsonError ResponseWriter.init error_running_query "0.1" 1).sent.Id ∧
    "cause".data.IsInfix
      (jsonError ResponseWriter.init (error_running_query.setInternalMessage "cause")
        "0.1" 0).logLine.data := by
  constructor
  · exact (claim_C9_fresh_id_private_cause ResponseWriter.init ResponseWriter.init
      error_running_query error_running_query "0.1" "0.1" "x" "y" 0 1).2.2.2.2.2.2.2.2.2.2
      (by decide)
  · exact (claim_C9_fresh_id_private_cause ResponseWriter.init ResponseWriter.init
      error_running_query error_running_query "0.1" "0.1" "cause" "y" 0 1).2.2.2.2.2.1

/-- C10: `setInternalMessage` returns a copy differing only in the
internal message, and for every catalog entry the envelope a request
serializes keeps the catalog's Status, Code and Message unchanged, for any
occurrence (any internal cause, elapsed time or id-supply state), so every
request observes the same constants; the catalog codes are fixed. -/
theorem claim_C10_catalog_constancy (d : detailedError) (m : String) (res : ResponseWriter)
    (t : String) (g : Nat) :
    (d.setInternalMessage m).Status = d.Status ∧
    (d.setInternalMessage m).Id = d.Id ∧
    (d.setInternalMessage m).Code = d.Code ∧
    (d.setInternalMessage m).Message = d.Message ∧
    (d.setInternalMessage m).InternalMessage = m ∧
    (∀ e, e ∈ [error_status_check, error_no_view_permisson, error_no_permissons,
        error_running_query, error_loading_events, error_invalid_parameters] →
      (jsonError res (e.setInternalMessage m) t g).sent.Status = e.Status ∧
      (jsonError res (e.setInternalMessage m) t g).sent.Code = e.Code ∧
      (jsonError res (e.setInternalMessage m) t g).sent.Message = e.Message) ∧
    error_status_check.Code = "data_status_check" ∧
    error_no_view_permisson.Code = "data_cant_view" ∧
    error_no_permissons.Code = "data_perms_error" ∧
    error_running_query.Code = "data_store_error" ∧
    error_loading_events.Code = "data_marshal_error" ∧
    error_invalid_parameters.Code = "invalid_parameters" := by
  refine ⟨rfl, rfl, rfl, rfl, rfl, ?_, rfl, rfl, rfl, rfl, rfl, rfl⟩
  intro e he
  exact ⟨rfl, rfl, rfl⟩

/-- C10 witness: an occurrence of the store-error envelope with an attached
internal cause still serializes the catalog's code and status. -/
theorem claim_C10_witness :
    (jsonError ResponseWriter.init (error_running_query.setInternalMessage "cause")
        "0.0" 7).sent.Code = "data_store_error" ∧
    (jsonError ResponseWriter.init (error_running_query.setInternalMessage "cause")
        "0.0" 7).sent.Status = 500 := by
  have h := (claim_C10_catalog_constancy error_running_query "cause" ResponseWriter.init
    "0.0" 7).2.2.2.2.2.1 error_running_query (by simp)
  exact ⟨h.2.1, h.1⟩

end TideWhisperer
